import Mathlib

/-!
Verification of the midcurve-api HTTP layer: a shallow embedding of the
authentication middleware (`src/middleware/with-auth.ts`), the request
validation schemas, the response envelope builders and the serializers,
together with theorems settling the specified properties.

External service calls (`@midcurve/services`, the Auth.js `auth()` session
provider) are modelled as oracles carried in an environment record: each
oracle field holds the result the external call would produce for this
request (`Except` for calls that may throw, `Option` for nullable results).
-/

namespace Midcurve

/-! ## JavaScript string primitives

The route code manipulates JS strings (`trim`, `startsWith`,
`String.prototype.includes`, first-occurrence `replace`).  These are
modelled over `List Char` with structural recursion. -/

/-- JS whitespace (the characters relevant to `String.prototype.trim`
for the header values at hand). -/
def isJsWhitespace (c : Char) : Bool :=
  c = ' ' || c = '\t' || c = '\n' || c = '\r'

/-- `String.prototype.trim`: strip whitespace from both ends. -/
def jsTrim (s : String) : String :=
  String.mk (((s.toList.dropWhile isJsWhitespace).reverse.dropWhile isJsWhitespace).reverse)

/-- `String.prototype.startsWith`. -/
def jsStartsWith (s pre : String) : Bool :=
  pre.toList.isPrefixOf s.toList

/-- Remove the first occurrence of `pat` from a character list
(`String.prototype.replace(pat, '')` on a plain-string pattern). -/
def removeFirstList (pat : List Char) : List Char → List Char
  | [] => []
  | c :: rest =>
    if pat.isPrefixOf (c :: rest) then (c :: rest).drop pat.length
    else c :: removeFirstList pat rest

/-- `authHeader.replace('Bearer ', '')` for a plain-string pattern:
removes the first occurrence only. -/
def jsReplaceFirst (s pat : String) : String :=
  String.mk (removeFirstList pat.toList s.toList)

/-- `String.prototype.includes pat` (substring containment). -/
def listContainsInfixOf (pat : List Char) : List Char → Bool
  | [] => pat.isEmpty
  | c :: rest => pat.isPrefixOf (c :: rest) || listContainsInfixOf pat rest

/-- `msg.includes(pat)` on JS strings. -/
def containsSubstr (s pat : String) : Bool :=
  listContainsInfixOf pat.toList s.toList

/-- JS truthiness of a possibly-absent string (`undefined` and `''` are
falsy, every other string truthy). -/
def jsTruthyStr : Option String → Bool
  | none => false
  | some s => s ≠ ""

/-! ## Error codes and the response envelope -/

/-- Modelled from the spec: the closed `ApiErrorCode` enum of §7 of the
spec (the `types/common` module that declares it is absent from the
sources; every route references it by name). -/
inductive ApiErrorCode where
  | VALIDATION_ERROR
  | BAD_REQUEST
  | INVALID_ADDRESS
  | CHAIN_NOT_SUPPORTED
  | UNAUTHORIZED
  | INVALID_SIWE_MESSAGE
  | INVALID_SIGNATURE
  | NONCE_INVALID
  | FORBIDDEN
  | NOT_FOUND
  | TOKEN_NOT_FOUND
  | POOL_NOT_FOUND
  | POSITION_NOT_FOUND
  | API_KEY_NOT_FOUND
  | WALLET_ALREADY_REGISTERED
  | CONFLICT
  | UNPROCESSABLE_ENTITY
  | TOO_MANY_REQUESTS
  | INTERNAL_SERVER_ERROR
  | BAD_GATEWAY
  | SERVICE_UNAVAILABLE
deriving DecidableEq, Repr

/-- Modelled from the spec: the total `ErrorCode -> HTTP status` table of
§7 of the spec (the `types/common` module holding `ErrorCodeToHttpStatus`
is absent from the sources; the README's table agrees). -/
def ErrorCodeToHttpStatus : ApiErrorCode → Nat
  | .VALIDATION_ERROR => 400
  | .BAD_REQUEST => 400
  | .INVALID_ADDRESS => 400
  | .CHAIN_NOT_SUPPORTED => 400
  | .UNAUTHORIZED => 401
  | .INVALID_SIWE_MESSAGE => 401
  | .INVALID_SIGNATURE => 401
  | .NONCE_INVALID => 401
  | .FORBIDDEN => 403
  | .NOT_FOUND => 404
  | .TOKEN_NOT_FOUND => 404
  | .POOL_NOT_FOUND => 404
  | .POSITION_NOT_FOUND => 404
  | .API_KEY_NOT_FOUND => 404
  | .WALLET_ALREADY_REGISTERED => 409
  | .CONFLICT => 409
  | .UNPROCESSABLE_ENTITY => 422
  | .TOO_MANY_REQUESTS => 429
  | .INTERNAL_SERVER_ERROR => 500
  | .BAD_GATEWAY => 502
  | .SERVICE_UNAVAILABLE => 503

/-- An emitted HTTP response: transport status plus the envelope fields the
claims are about.  Success payloads are modelled per route where needed. -/
structure Response where
  status : Nat
  success : Bool
  errorCode : Option ApiErrorCode
  errorMessage : Option String
deriving DecidableEq, Repr

/-- Modelled from the spec: `error(code, message, details?)` of §4.3 builds
the `{success:false, error:{code,message}}` envelope and the transport
status is the table lookup for `code` (the `types/common` builder is
absent from the sources; every route calls
`NextResponse.json(createErrorResponse(code, msg), {status: ErrorCodeToHttpStatus[code]})`,
which this definition fuses into one emitted response). -/
def createErrorResponse (code : ApiErrorCode) (message : String) : Response :=
  { status := ErrorCodeToHttpStatus code
    success := false
    errorCode := some code
    errorMessage := some message }

/-! ## Authentication data model (`src/types/auth`, `with-auth.ts`) -/

structure WalletAddress where
  id : String
  userId : String
  address : String
  chainId : Nat
  isPrimary : Bool
deriving DecidableEq, Repr

/-- The principal composed per request (`AuthenticatedUser`). -/
structure AuthenticatedUser where
  id : String
  name : Option String
  email : Option String
  image : Option String
  wallets : List WalletAddress
deriving DecidableEq, Repr

/-- The record returned by `apiKeyService.validateApiKey`. -/
structure ApiKeyRecord where
  id : String
  userId : String
deriving DecidableEq, Repr

/-- The record returned by `userService.findUserById`. -/
structure User where
  id : String
  name : Option String
  email : Option String
  image : Option String
deriving DecidableEq, Repr

/-- `session.user` claims (`id` may be absent, mirroring `session?.user?.id`). -/
structure SessionUser where
  id : Option String
  name : Option String
  email : Option String
  image : Option String
  wallets : List WalletAddress
deriving DecidableEq, Repr

/-- The object returned by the Auth.js `auth()` call. -/
structure Session where
  user : Option SessionUser
deriving DecidableEq, Repr

/-- Oracle environment for one request: the results the external
collaborators produce.  `Except String` models a call that may throw an
`Error` carrying a message; `updateLastUsedCall` is the fire-and-forget
timestamp update whose rejection is consumed by the `.catch` logger. -/
structure AuthEnv where
  validateApiKeyCall : String → Except String (Option ApiKeyRecord)
  updateLastUsedCall : String → Except String Unit
  findUserByIdCall : String → Except String (Option User)
  getUserWalletsCall : String → Except String (Option (List WalletAddress))
  sessionCall : Option Session

/-- The log line of the `.catch` attached to the fire-and-forget
`updateLastUsed` promise (with-auth.ts lines 89-92): a rejection is
consumed here and becomes a log entry only. -/
def lastUsedLogOf : Except String Unit → List String
  | .error e => ["Failed to update API key lastUsed: " ++ e]
  | .ok _ => []

/-- `validateApiKey` (with-auth.ts lines 80-116): validate the key, fire
the last-used update (outcome only logged), fetch user and wallets; any
thrown error is caught and yields `null`.  Returns the principal (or
`none`) together with the log lines produced. -/
def validateApiKey (env : AuthEnv) (key : String) :
    Option AuthenticatedUser × List String :=
  match env.validateApiKeyCall key with
  | .error e => (none, ["API key validation error: " ++ e])
  | .ok none => (none, [])
  | .ok (some keyRecord) =>
    let lastUsedLog := lastUsedLogOf (env.updateLastUsedCall keyRecord.id)
    match env.findUserByIdCall keyRecord.userId with
    | .error e => (none, lastUsedLog ++ ["API key validation error: " ++ e])
    | .ok none => (none, lastUsedLog)
    | .ok (some user) =>
      match env.getUserWalletsCall user.id with
      | .error e => (none, lastUsedLog ++ ["API key validation error: " ++ e])
      | .ok wallets =>
        (some { id := user.id, name := user.name, email := user.email,
                image := user.image, wallets := wallets.getD [] },
         lastUsedLog)

/-- The data flow of `validateApiKey` that reaches the returned principal:
only the key-validation, user and wallet lookups — the fire-and-forget
update result never feeds it. -/
def apiKeyLookup (vk : String → Except String (Option ApiKeyRecord))
    (fu : String → Except String (Option User))
    (gw : String → Except String (Option (List WalletAddress)))
    (key : String) : Option AuthenticatedUser :=
  match vk key with
  | .error _ => none
  | .ok none => none
  | .ok (some keyRecord) =>
    match fu keyRecord.userId with
    | .error _ => none
    | .ok none => none
    | .ok (some user) =>
      match gw user.id with
      | .error _ => none
      | .ok wallets =>
        some { id := user.id, name := user.name, email := user.email,
               image := user.image, wallets := wallets.getD [] }

/-- `authHeader?.replace('Bearer ', '').trim()` (with-auth.ts line 41). -/
def extractApiKey (authHeader : Option String) : Option String :=
  authHeader.map (fun h => jsTrim (jsReplaceFirst h "Bearer "))

/-- The API-key branch of `withAuth` (lines 43-48): only a present,
nonempty token with the `mc_` marker is delegated to `validateApiKey`. -/
def apiKeyPrincipal (env : AuthEnv) (authHeader : Option String) :
    Option AuthenticatedUser :=
  match extractApiKey authHeader with
  | none => none
  | some k =>
    if k ≠ "" ∧ jsStartsWith k "mc_" then (validateApiKey env k).1 else none

/-- `session?.user?.id` resolution (lines 51-61): the session principal,
present exactly when the session resolves to a truthy user id. -/
def sessionPrincipal (session : Option Session) : Option AuthenticatedUser :=
  match session with
  | none => none
  | some s =>
    match s.user with
    | none => none
    | some u =>
      match u.id with
      | none => none
      | some uid =>
        if uid ≠ "" then
          some { id := uid, name := u.name, email := u.email,
                 image := u.image, wallets := u.wallets }
        else none

/-- Outcome of the middleware: either the handler runs with a principal,
or the request is rejected before the handler. -/
inductive AuthOutcome where
  | handled (user : AuthenticatedUser)
  | unauthorized
deriving DecidableEq, Repr

/-- `withAuth` control flow (lines 35-72): API-key branch first, then
session, else 401; the handler is reached only through `handled`. -/
def withAuthOutcome (env : AuthEnv) (authHeader : Option String) : AuthOutcome :=
  match apiKeyPrincipal env authHeader with
  | some u => .handled u
  | none =>
    match sessionPrincipal env.sessionCall with
    | some u => .handled u
    | none => .unauthorized

/-- The fixed 401 response of `withAuth` (lines 64-71). -/
def unauthorizedResponse : Response :=
  createErrorResponse .UNAUTHORIZED
    "Authentication required. Provide a valid session or API key."

/-- `withAuth` as a response transformer: run the handler on the resolved
principal, or emit the fixed 401 envelope. -/
def withAuth (env : AuthEnv) (authHeader : Option String)
    (handler : AuthenticatedUser → Response) : Response :=
  match withAuthOutcome env authHeader with
  | .handled u => handler u
  | .unauthorized => unauthorizedResponse

/-- POST /api/v1/auth/link-wallet (route.ts lines 49-50): the route body is
a single `withAuth(request, handler)` call, so its authentication gate is
exactly the dual-scheme middleware. -/
def linkWalletPOST (env : AuthEnv) (authHeader : Option String)
    (handler : AuthenticatedUser → Response) : Response :=
  withAuth env authHeader handler

/-! ## Regex checks shared by the Zod schemas -/

/-- `[0-9a-fA-F]`. -/
def isHexDigitChar (c : Char) : Bool :=
  c.isDigit || ('a' ≤ c && c ≤ 'f') || ('A' ≤ c && c ≤ 'F')

/-- Exactly `n` hex characters. -/
def hexChars (l : List Char) (n : Nat) : Bool :=
  l.length = n && l.all isHexDigitChar

/-- `^(0x)?[0-9a-fA-F]{n}$`: `n` hex characters with an optional `0x`. -/
def matchesOptional0x (l : List Char) (n : Nat) : Bool :=
  hexChars l n ||
    (match l with
     | '0' :: 'x' :: rest => hexChars rest n
     | _ => false)

/-- `ethereumAddressRegex = /^(0x)?[0-9a-fA-F]{40}$/` (update.schema.ts). -/
def ethereumAddressCheck (s : String) : Bool :=
  matchesOptional0x s.toList 40

/-- `txHashRegex = /^(0x)?[0-9a-fA-F]{64}$/` (update.schema.ts). -/
def txHashCheck (s : String) : Bool :=
  matchesOptional0x s.toList 64

/-- `bigIntStringRegex = /^[0-9]+$/` (update.schema.ts). -/
def bigIntStringCheck (s : String) : Bool :=
  !s.toList.isEmpty && s.toList.all Char.isDigit

/-- `/^0x[a-fA-F0-9]{40}$/` — the strict form used by erc20.schema.ts. -/
def strict0xAddressCheck (s : String) : Bool :=
  match s.toList with
  | '0' :: 'x' :: rest => hexChars rest 40
  | _ => false

/-- `\d*Z` tail of the ISO 8601 datetime pattern. -/
def digitsThenZ : List Char → Bool
  | [] => false
  | ['Z'] => true
  | c :: rest => c.isDigit && digitsThenZ rest

/-- Tail after the seconds field: `Z` or `.\d+Z`. -/
def isoDatetimeTail : List Char → Bool
  | ['Z'] => true
  | '.' :: c :: rest => c.isDigit && digitsThenZ rest
  | _ => false

/-- `z.string().datetime()`: the default Zod ISO 8601 UTC pattern
`\d{4}-\d{2}-\d{2}T\d{2}:\d{2}:\d{2}(\.\d+)?Z`. -/
def isoDatetimeCheck (s : String) : Bool :=
  match s.toList with
  | y1 :: y2 :: y3 :: y4 :: sep1 :: m1 :: m2 :: sep2 :: d1 :: d2 :: t ::
      h1 :: h2 :: sep3 :: n1 :: n2 :: sep4 :: s1 :: s2 :: rest =>
    y1.isDigit && y2.isDigit && y3.isDigit && y4.isDigit && (sep1 == '-') &&
    m1.isDigit && m2.isDigit && (sep2 == '-') && d1.isDigit && d2.isDigit &&
    (t == 'T') && h1.isDigit && h2.isDigit && (sep3 == ':') &&
    n1.isDigit && n2.isDigit && (sep4 == ':') && s1.isDigit && s2.isDigit &&
    isoDatetimeTail rest
  | _ => false

/-! ## Ledger event schema (`src/types/positions/update.schema.ts`) -/

/-- A body element of the `events` array, after JSON parsing.  JSON
numbers carrying the `z.number().int()` fields are modelled as integers. -/
structure RawEvent where
  eventType : String
  timestamp : String
  blockNumber : String
  transactionIndex : Int
  logIndex : Int
  transactionHash : String
  liquidity : Option String
  amount0 : String
  amount1 : String
  recipient : Option String
deriving DecidableEq, Repr

/-- Field-level issues of the base object schema (`eventSchema` before
`superRefine`): enum membership for `eventType` and the per-field format
constraints; absent optional fields pass.  Each issue is recorded by the
path of the offending field. -/
def eventBaseIssues (e : RawEvent) : List String :=
  (if e.eventType = "INCREASE_LIQUIDITY" ∨ e.eventType = "DECREASE_LIQUIDITY" ∨
      e.eventType = "COLLECT" then [] else ["eventType"]) ++
  (if isoDatetimeCheck e.timestamp then [] else ["timestamp"]) ++
  (if bigIntStringCheck e.blockNumber then [] else ["blockNumber"]) ++
  (if 0 ≤ e.transactionIndex then [] else ["transactionIndex"]) ++
  (if 0 ≤ e.logIndex then [] else ["logIndex"]) ++
  (if txHashCheck e.transactionHash then [] else ["transactionHash"]) ++
  (match e.liquidity with
   | none => []
   | some l => if bigIntStringCheck l then [] else ["liquidity"]) ++
  (if bigIntStringCheck e.amount0 then [] else ["amount0"]) ++
  (if bigIntStringCheck e.amount1 then [] else ["amount1"]) ++
  (match e.recipient with
   | none => []
   | some r => if ethereumAddressCheck r then [] else ["recipient"])

/-- The `superRefine` issues (update.schema.ts lines 88-121):
`!data.liquidity` and `data.recipient` are JS truthiness tests. -/
def eventRefineIssues (e : RawEvent) : List String :=
  (if e.eventType = "INCREASE_LIQUIDITY" ∨ e.eventType = "DECREASE_LIQUIDITY" then
    (if jsTruthyStr e.liquidity then [] else ["liquidity"]) ++
    (if jsTruthyStr e.recipient then ["recipient"] else [])
   else []) ++
  (if e.eventType = "COLLECT" then
    (if jsTruthyStr e.recipient then [] else ["recipient"])
   else [])

/-- Full `eventSchema` validation: the refinement runs only when the base
object parse succeeded (Zod semantics of `.superRefine`); validation
passes exactly when the issue list is empty. -/
def eventIssues (e : RawEvent) : List String :=
  match eventBaseIssues e with
  | [] => eventRefineIssues e
  | issues => issues

/-! ## Token search schema and route
(`src/types/tokens/erc20.schema.ts`, the search route) -/

/-- The object handed to `SearchErc20TokensQuerySchema.safeParse`
(string-or-absent per key; `none` covers both `null` and `undefined`,
which coerce and refine identically here). -/
structure SearchQueryInput where
  chainId : Option String
  symbol : Option String
  name : Option String
  address : Option String
deriving DecidableEq, Repr

/-- `z.coerce.number().int().positive()` on a query value.  Modelled on
the decimal-digit fragment of JS `Number` coercion: an absent value
(`Number(null) = 0`, `Number(undefined) = NaN`) and a non-digit string
fail; a digit string passes when its value is positive. -/
def coerceChainId : Option String → Option Nat
  | none => none
  | some s =>
    if s.toList.isEmpty || !s.toList.all Char.isDigit then none
    else
      let n := s.toList.foldl (fun acc c => 10 * acc + (c.toNat - 48)) 0
      if 0 < n then some n else none

/-- Result of the search-query schema: the parsed value or a validation
failure. -/
inductive SearchValidation where
  | ok (chainId : Nat) (symbol name address : Option String)
  | invalid
deriving DecidableEq, Repr

/-- `SearchErc20TokensQuerySchema` (erc20.schema.ts lines 30-49):
`chainId` coerced positive int; `symbol`/`name` optional nonempty;
`address` optional strict `0x` form; then the cross-field refinement
that at least one of `symbol`, `name`, `address` is present. -/
def SearchErc20TokensQuerySchemaParse (q : SearchQueryInput) : SearchValidation :=
  match coerceChainId q.chainId with
  | none => .invalid
  | some cid =>
    let symbolOk := match q.symbol with | none => true | some s => 1 ≤ s.toList.length
    let nameOk := match q.name with | none => true | some s => 1 ≤ s.toList.length
    let addressOk := match q.address with | none => true | some a => strict0xAddressCheck a
    if symbolOk && nameOk && addressOk then
      if q.symbol.isSome || q.name.isSome || q.address.isSome then
        .ok cid q.symbol q.name q.address
      else .invalid
    else .invalid

/-- The raw query string of a GET /api/v1/tokens/erc20/search request. -/
structure SearchRequestQuery where
  chainId : Option String
  symbol : Option String
  name : Option String
  address : Option String
deriving DecidableEq, Repr

/-- The object the search route actually builds for `safeParse`
(search route lines 46-51): `chainId` passed as returned by
`searchParams.get`, `symbol`/`name` with `|| undefined` collapsing the
empty string to absent — and no `address` key at all. -/
def searchRouteSchemaInput (q : SearchRequestQuery) : SearchQueryInput :=
  { chainId := q.chainId
    symbol := match q.symbol with
      | some s => if s = "" then none else some s
      | none => none
    name := match q.name with
      | some s => if s = "" then none else some s
      | none => none
    address := none }

/-- Validation as performed by the search route on an incoming query. -/
def searchRouteValidation (q : SearchRequestQuery) : SearchValidation :=
  SearchErc20TokensQuerySchemaParse (searchRouteSchemaInput q)

/-! ## POST /api/v1/tokens/erc20 error mapping (tokens/erc20 route) -/

/-- The catch-block of the token discovery POST (route lines 86-144):
the thrown message is matched against the fixed substring list in source
order, first match wins, otherwise INTERNAL_SERVER_ERROR. -/
def discoverTokenErrorResponse (msg : String) : Response :=
  if containsSubstr msg "Invalid Ethereum address" then
    createErrorResponse .INVALID_ADDRESS "Invalid Ethereum address format"
  else if containsSubstr msg "not configured" then
    createErrorResponse .CHAIN_NOT_SUPPORTED "Chain not supported"
  else if containsSubstr msg "does not implement ERC-20" ||
          containsSubstr msg "Failed to read token metadata" then
    createErrorResponse .BAD_REQUEST "Contract does not implement ERC-20 interface"
  else if containsSubstr msg "CoinGecko" || containsSubstr msg "enrichment" then
    createErrorResponse .TOKEN_NOT_FOUND "Token not found on CoinGecko or enrichment failed"
  else
    createErrorResponse .INTERNAL_SERVER_ERROR "Failed to discover token"

/-- The delegated part of the POST handler after body validation: a
successful `erc20TokenService.discover` yields a 200 success envelope,
a thrown `Error` goes through the substring mapping. -/
def postErc20Token (discoverResult : Except String Unit) : Response :=
  match discoverResult with
  | .ok _ => { status := 200, success := true, errorCode := none, errorMessage := none }
  | .error msg => discoverTokenErrorResponse msg

/-! ## Serializers (`src/lib/serializers.ts`) -/

/-- Pool state as delivered by the service layer: nonnegative on-chain
bigint words plus the signed current tick. -/
structure UniswapV3PoolState where
  sqrtPriceX96 : Nat
  liquidity : Nat
  currentTick : Int
  feeGrowthGlobal0 : Nat
  feeGrowthGlobal1 : Nat
deriving DecidableEq, Repr

/-- The JSON-safe shape produced by `serializeUniswapV3PoolState`. -/
structure SerializedPoolState where
  sqrtPriceX96 : String
  liquidity : String
  currentTick : Int
  feeGrowthGlobal0 : String
  feeGrowthGlobal1 : String
deriving DecidableEq, Repr

/-- Decimal digits of `n`, most significant first (fuel-structural model
of the repeated divide-by-ten loop of `BigInt.prototype.toString`). -/
def toDecimalAux : Nat → Nat → List Char
  | 0, _ => []
  | fuel + 1, n =>
    if n = 0 then []
    else toDecimalAux fuel (n / 10) ++ [Nat.digitChar (n % 10)]

/-- `BigInt.prototype.toString()`: the exact base-10 representation, no
exponent, no fractional part. -/
def bigintToString (n : Nat) : String :=
  if n = 0 then "0" else String.mk (toDecimalAux (n + 1) n)

/-- Read a decimal string back into the integer it denotes (the
round-trip direction of the serialization property). -/
def parseDecimal (s : String) : Option Nat :=
  if s.toList.isEmpty then none
  else if s.toList.all Char.isDigit then
    some (s.toList.foldl (fun acc c => 10 * acc + (c.toNat - 48)) 0)
  else none

/-- `serializeUniswapV3PoolState` (serializers.ts lines 46-54): each
bigint field becomes its decimal string, `currentTick` is passed through. -/
def serializeUniswapV3PoolState (state : UniswapV3PoolState) : SerializedPoolState :=
  { sqrtPriceX96 := bigintToString state.sqrtPriceX96
    liquidity := bigintToString state.liquidity
    currentTick := state.currentTick
    feeGrowthGlobal0 := bigintToString state.feeGrowthGlobal0
    feeGrowthGlobal1 := bigintToString state.feeGrowthGlobal1 }

/-! ## Paginated envelope (positions list route) -/

structure Pagination where
  total : Nat
  limit : Nat
  offset : Nat
  hasMore : Bool
deriving DecidableEq, Repr

/-- The paginated envelope (`success` is the discriminant). -/
structure PaginatedResponse (α : Type) where
  success : Bool
  data : List α
  pagination : Pagination
deriving DecidableEq, Repr

/-- Modelled from the spec: the §4.3 builder
`paginated(items, total, limit, offset, meta?)` returning
`{success:true, data:items, pagination:{total,limit,offset,hasMore: offset+limit<total}}`
(the `types/common` module holding `createPaginatedResponse` is absent
from the sources; the positions list route calls it with exactly these
four data arguments).  `hasMore` is derived here and is not a parameter. -/
def createPaginatedResponse (items : List α) (total limit offset : Nat) :
    PaginatedResponse α :=
  { success := true
    data := items
    pagination :=
      { total := total, limit := limit, offset := offset,
        hasMore := decide (offset + limit < total) } }

/-- GET /api/v1/positions/uniswapv3/list, response assembly (route lines
136-146): the route spreads the builder output and replaces only `meta`,
so the envelope fields are the builder's. -/
def listPositionsRouteEnvelope (serializedPositions : List α)
    (total limit offset : Nat) : PaginatedResponse α :=
  createPaginatedResponse serializedPositions total limit offset

/-! ## API-key management routes (session-only auth) -/

/-- Oracles for the API-key management routes: the session provider and
the three service operations the routes may invoke. -/
structure ApiKeysEnv where
  sessionCall : Option Session
  getUserApiKeysCall : String → Except String (List String)
  createApiKeyCall : String → String → Except String String
  revokeApiKeyCall : String → String → Except String Unit

/-- Truthy `session?.user?.id` as checked by the api-keys routes. -/
def sessionUserId (session : Option Session) : Option String :=
  match session with
  | none => none
  | some s =>
    match s.user with
    | none => none
    | some u =>
      match u.id with
      | none => none
      | some uid => if uid ≠ "" then some uid else none

/-- GET /api/v1/user/api-keys (api-keys route lines 35-83): session check
first — the request's Authorization header is never consulted — then the
list service call.  The boolean records whether any service operation ran. -/
def apiKeysGET (env : ApiKeysEnv) (_authHeader : Option String) : Response × Bool :=
  match sessionUserId env.sessionCall with
  | none => (createErrorResponse .UNAUTHORIZED "Session authentication required", false)
  | some uid =>
    match env.getUserApiKeysCall uid with
    | .ok _ => ({ status := 200, success := true, errorCode := none, errorMessage := none }, true)
    | .error _ => (createErrorResponse .INTERNAL_SERVER_ERROR "Failed to retrieve API keys", true)

/-- POST /api/v1/user/api-keys (lines 91-158): session check first, then
body validation (`CreateApiKeyRequestSchema`, absent from the sources —
a body that validates is modelled as `some name`), then key creation. -/
def apiKeysPOST (env : ApiKeysEnv) (_authHeader : Option String)
    (validatedBody : Option String) : Response × Bool :=
  match sessionUserId env.sessionCall with
  | none => (createErrorResponse .UNAUTHORIZED "Session authentication required", false)
  | some uid =>
    match validatedBody with
    | none => (createErrorResponse .VALIDATION_ERROR "Invalid request data", false)
    | some name =>
      match env.createApiKeyCall uid name with
      | .ok _ => ({ status := 201, success := true, errorCode := none, errorMessage := none }, true)
      | .error _ => (createErrorResponse .INTERNAL_SERVER_ERROR "Failed to create API key", true)

/-- DELETE /api/v1/user/api-keys/:id ([id] route lines 35-103): session
check first, then the id guard, then revocation with the
`not found` / `does not belong` substring mapping. -/
def apiKeysDELETE (env : ApiKeysEnv) (_authHeader : Option String)
    (keyId : String) : Response × Bool :=
  match sessionUserId env.sessionCall with
  | none => (createErrorResponse .UNAUTHORIZED "Session authentication required", false)
  | some uid =>
    if keyId = "" then
      (createErrorResponse .VALIDATION_ERROR "Invalid API key ID", false)
    else
      match env.revokeApiKeyCall uid keyId with
      | .ok _ => ({ status := 200, success := true, errorCode := none, errorMessage := none }, true)
      | .error msg =>
        if containsSubstr msg "not found" || containsSubstr msg "does not belong" then
          (createErrorResponse .API_KEY_NOT_FOUND
            "API key not found or does not belong to user", true)
        else
          (createErrorResponse .INTERNAL_SERVER_ERROR "Failed to revoke API key", true)

/-! ## Concrete inputs used to instantiate the theorems -/

/-- A wallet row as returned by `userService.getUserWallets`. -/
def exWallet : WalletAddress :=
  { id := "w1", userId := "user1",
    address := "0xAb5801a7D398351b8bE11C439e05C5B3259aeC9B", chainId := 1,
    isPrimary := true }

/-- The API-key record of the valid key `mc_live_key1`. -/
def exKeyRecord : ApiKeyRecord := { id := "key1", userId := "user1" }

/-- The owning user of `exKeyRecord`. -/
def exUser : User :=
  { id := "user1", name := some "Alice", email := none, image := none }

/-- The principal the middleware composes for `mc_live_key1`. -/
def exApiKeyPrincipal : AuthenticatedUser :=
  { id := "user1", name := some "Alice", email := none, image := none,
    wallets := [exWallet] }

/-- A session resolving to the distinct user `sess1`. -/
def exSession : Session :=
  { user := some { id := some "sess1", name := none, email := none,
                   image := none, wallets := [] } }

/-- The principal composed from `exSession`. -/
def exSessionPrincipal : AuthenticatedUser :=
  { id := "sess1", name := none, email := none, image := none, wallets := [] }

/-- Environment in which `mc_live_key1` is a valid key owned by `exUser`,
the last-used update fails, and there is no session. -/
def exEnvApiKeyOk : AuthEnv :=
  { validateApiKeyCall := fun k =>
      if k = "mc_live_key1" then .ok (some exKeyRecord) else .ok none
    updateLastUsedCall := fun _ => .error "db down"
    findUserByIdCall := fun uid =>
      if uid = "user1" then .ok (some exUser) else .ok none
    getUserWalletsCall := fun _ => .ok (some [exWallet])
    sessionCall := none }

/-- The same environment with a succeeding last-used update. -/
def exEnvApiKeyOkUpd : AuthEnv :=
  { exEnvApiKeyOk with updateLastUsedCall := fun _ => .ok () }

/-- Environment with no valid API key and no session. -/
def exEnvNoAuth : AuthEnv :=
  { validateApiKeyCall := fun _ => .ok none
    updateLastUsedCall := fun _ => .ok ()
    findUserByIdCall := fun _ => .ok none
    getUserWalletsCall := fun _ => .ok none
    sessionCall := none }

/-- Environment where every presented API key is rejected but a session
resolving to `exSessionPrincipal` exists. -/
def exEnvSessionOnly : AuthEnv :=
  { validateApiKeyCall := fun _ => .ok none
    updateLastUsedCall := fun _ => .ok ()
    findUserByIdCall := fun _ => .ok none
    getUserWalletsCall := fun _ => .ok none
    sessionCall := some exSession }

/-- Api-keys-route environment with no session (services would succeed). -/
def exApiKeysEnvNoSession : ApiKeysEnv :=
  { sessionCall := none
    getUserApiKeysCall := fun _ => .ok ["k1"]
    createApiKeyCall := fun _ _ => .ok "mc_new"
    revokeApiKeyCall := fun _ _ => .ok () }

/-- A ledger event with every per-field format valid: a COLLECT carrying
its recipient. -/
def exCollectEvent : RawEvent :=
  { eventType := "COLLECT"
    timestamp := "2024-01-15T12:00:00Z"
    blockNumber := "19000000"
    transactionIndex := 3
    logIndex := 7
    transactionHash :=
      "0x1111111111111111111111111111111111111111111111111111111111111111"
    liquidity := none
    amount0 := "1000"
    amount1 := "2000"
    recipient := some "0xAb5801a7D398351b8bE11C439e05C5B3259aeC9B" }

/-- The same event with the recipient omitted. -/
def exCollectNoRecipient : RawEvent := { exCollectEvent with recipient := none }

/-- A format-valid INCREASE_LIQUIDITY event. -/
def exIncreaseEvent : RawEvent :=
  { exCollectEvent with
      eventType := "INCREASE_LIQUIDITY"
      liquidity := some "500"
      recipient := none }

/-- A search request supplying `chainId` and `address` alone. -/
def exAddressOnlyQuery : SearchRequestQuery :=
  { chainId := some "1"
    symbol := none
    name := none
    address := some "0xAb5801a7D398351b8bE11C439e05C5B3259aeC9B" }

/-- A search request supplying `chainId` and a nonempty `symbol`. -/
def exSymbolQuery : SearchRequestQuery :=
  { chainId := some "1", symbol := some "usd", name := none, address := none }

/-- A pool state holding the largest 256-bit word in every bigint field. -/
def exMaxPoolState : UniswapV3PoolState :=
  { sqrtPriceX96 := 2 ^ 256 - 1
    liquidity := 2 ^ 256 - 1
    currentTick := -887272
    feeGrowthGlobal0 := 2 ^ 256 - 1
    feeGrowthGlobal1 := 2 ^ 256 - 1 }

/-- A fixed 200 success envelope used as a concrete handler result. -/
def exOkResponse : Response :=
  { status := 200, success := true, errorCode := none, errorMessage := none }

/-- A concrete route handler. -/
def exHandler : AuthenticatedUser → Response := fun _ => exOkResponse

/-! ## Helper lemmas -/

/-- The principal component of `validateApiKey` is `apiKeyLookup` of the
three data-bearing oracles: the fire-and-forget update result can only
reach the log component. -/
theorem validateApiKey_fst (env : AuthEnv) (key : String) :
    (validateApiKey env key).1 =
      apiKeyLookup env.validateApiKeyCall env.findUserByIdCall
        env.getUserWalletsCall key := by
  unfold validateApiKey apiKeyLookup
  cases env.validateApiKeyCall key with
  | error e => rfl
  | ok o =>
    cases o with
    | none => rfl
    | some keyRecord =>
      dsimp only
      cases env.findUserByIdCall keyRecord.userId with
      | error e => rfl
      | ok o2 =>
        cases o2 with
        | none => rfl
        | some user =>
          dsimp only
          cases env.getUserWalletsCall user.id <;> rfl

/-- A nonempty format check forces a nonempty string. -/
theorem bigIntStringCheck_ne_empty {s : String} (h : bigIntStringCheck s = true) :
    s ≠ "" := by
  intro he
  subst he
  simp [bigIntStringCheck] at h

/-- A string passing the address pattern is nonempty. -/
theorem ethereumAddressCheck_ne_empty {s : String} (h : ethereumAddressCheck s = true) :
    s ≠ "" := by
  intro he
  subst he
  simp [ethereumAddressCheck, matchesOptional0x, hexChars] at h

/-- An `if`-guarded empty issue list forces its guard. -/
theorem guard_of_issue_nil {c : Prop} [Decidable c] {p : String}
    (h : (if c then ([] : List String) else [p]) = []) : c := by
  by_cases hc : c
  · exact hc
  · simp [hc] at h

/-! ## Claim theorems -/

/-- C1: for every request to a protected route in which the bearer-token
API-key validation does not yield a user and no session resolves to a user
id, the response has HTTP status 401 with body `success:false` and the
UNAUTHORIZED error code, and the route handler is never executed. -/
theorem withAuth_rejects_unauthenticated (env : AuthEnv)
    (authHeader : Option String) (handler : AuthenticatedUser → Response)
    (hkey : apiKeyPrincipal env authHeader = none)
    (hsession : sessionPrincipal env.sessionCall = none) :
    withAuthOutcome env authHeader = .unauthorized ∧
    withAuth env authHeader handler = unauthorizedResponse ∧
    (withAuth env authHeader handler).status = 401 ∧
    (withAuth env authHeader handler).success = false ∧
    (withAuth env authHeader handler).errorCode = some .UNAUTHORIZED := by
  have hout : withAuthOutcome env authHeader = .unauthorized := by
    unfold withAuthOutcome
    rw [hkey, hsession]
  have hresp : withAuth env authHeader handler = unauthorizedResponse := by
    unfold withAuth
    rw [hout]
  refine ⟨hout, hresp, ?_, ?_, ?_⟩ <;>
    simp [hresp, unauthorizedResponse, createErrorResponse, ErrorCodeToHttpStatus]

/-- Witness for C1: a request presenting an unknown `mc_` key against an
environment with no session is rejected with the 401 envelope. -/
theorem withAuth_rejects_unauthenticated_witness :
    withAuthOutcome exEnvNoAuth (some "Bearer mc_unknown") = .unauthorized ∧
    withAuth exEnvNoAuth (some "Bearer mc_unknown") exHandler = unauthorizedResponse ∧
    (withAuth exEnvNoAuth (some "Bearer mc_unknown") exHandler).status = 401 ∧
    (withAuth exEnvNoAuth (some "Bearer mc_unknown") exHandler).success = false ∧
    (withAuth exEnvNoAuth (some "Bearer mc_unknown") exHandler).errorCode =
      some .UNAUTHORIZED :=
  withAuth_rejects_unauthenticated exEnvNoAuth (some "Bearer mc_unknown")
    exHandler (by rfl) (by rfl)

/-- C10: a bearer token with the `mc_` prefix whose validation fails does
not end authentication there — the middleware falls through to the session
check, and the request is handled as the session user whenever a valid
session exists. -/
theorem withAuth_apiKeyFail_fallsThrough (env : AuthEnv)
    (authHeader : Option String) (handler : AuthenticatedUser → Response)
    (k : String) (u : AuthenticatedUser)
    (hk : extractApiKey authHeader = some k)
    (hmc : k ≠ "" ∧ jsStartsWith k "mc_")
    (hfail : (validateApiKey env k).1 = none)
    (hsession : sessionPrincipal env.sessionCall = some u) :
    withAuthOutcome env authHeader = .handled u ∧
    withAuth env authHeader handler = handler u := by
  have hap : apiKeyPrincipal env authHeader = none := by
    unfold apiKeyPrincipal
    rw [hk]
    dsimp only
    rw [if_pos hmc, hfail]
  have hout : withAuthOutcome env authHeader = .handled u := by
    unfold withAuthOutcome
    rw [hap, hsession]
  refine ⟨hout, ?_⟩
  unfold withAuth
  rw [hout]

/-- Witness for C10: the rejected key `mc_invalid` next to a live session
still yields the session principal. -/
theorem withAuth_apiKeyFail_fallsThrough_witness :
    withAuthOutcome exEnvSessionOnly (some "Bearer mc_invalid") =
      .handled exSessionPrincipal ∧
    withAuth exEnvSessionOnly (some "Bearer mc_invalid") exHandler =
      exHandler exSessionPrincipal :=
  withAuth_apiKeyFail_fallsThrough exEnvSessionOnly (some "Bearer mc_invalid")
    exHandler "mc_invalid" exSessionPrincipal (by rfl) (by decide) (by rfl) (by rfl)

/-- C9: the response of an API-key-authenticated request does not depend on
the outcome of the fire-and-forget last-used-timestamp update: two
environments that agree on everything except `updateLastUsedCall` produce
the same principal and the same response, and a valid key still reaches
the handler, whose result is returned. -/
theorem lastUsed_update_noninterference (env₁ env₂ : AuthEnv)
    (authHeader : Option String) (handler : AuthenticatedUser → Response)
    (hv : env₁.validateApiKeyCall = env₂.validateApiKeyCall)
    (hf : env₁.findUserByIdCall = env₂.findUserByIdCall)
    (hw : env₁.getUserWalletsCall = env₂.getUserWalletsCall)
    (hs : env₁.sessionCall = env₂.sessionCall) :
    (∀ k, (validateApiKey env₁ k).1 = (validateApiKey env₂ k).1) ∧
    withAuth env₁ authHeader handler = withAuth env₂ authHeader handler ∧
    (∀ u, apiKeyPrincipal env₁ authHeader = some u →
      withAuth env₁ authHeader handler = handler u) := by
  have hvk : ∀ k, (validateApiKey env₁ k).1 = (validateApiKey env₂ k).1 := by
    intro k
    rw [validateApiKey_fst, validateApiKey_fst, hv, hf, hw]
  have hap : apiKeyPrincipal env₁ authHeader = apiKeyPrincipal env₂ authHeader := by
    unfold apiKeyPrincipal
    cases extractApiKey authHeader with
    | none => rfl
    | some k =>
      dsimp only
      rw [hvk k]
  have hout : withAuthOutcome env₁ authHeader = withAuthOutcome env₂ authHeader := by
    unfold withAuthOutcome
    rw [hap, hs]
  refine ⟨hvk, ?_, ?_⟩
  · unfold withAuth
    rw [hout]
  · intro u hu
    unfold withAuth withAuthOutcome
    rw [hu]

/-- Witness for C9: the valid key `mc_live_key1` under a failing
last-used update and under a succeeding one gives identical responses,
namely the handler's result on the composed principal. -/
theorem lastUsed_update_noninterference_witness :
    withAuth exEnvApiKeyOk (some "Bearer mc_live_key1") exHandler =
      withAuth exEnvApiKeyOkUpd (some "Bearer mc_live_key1") exHandler ∧
    withAuth exEnvApiKeyOk (some "Bearer mc_live_key1") exHandler =
      exHandler exApiKeyPrincipal :=
  have h := lastUsed_update_noninterference exEnvApiKeyOk exEnvApiKeyOkUpd
    (some "Bearer mc_live_key1") exHandler rfl rfl rfl rfl
  ⟨h.2.1, h.2.2 exApiKeyPrincipal (by rfl)⟩

/-- C3 (failing input): POST /v1/auth/link-wallet is wrapped in the
dual-scheme `withAuth`, so a request carrying the valid API key
`mc_live_key1` with no session is not rejected — the middleware resolves
the API-key principal and the route handler (the wallet-linking flow)
executes, contradicting the session-only contract stated in the route's
own header comment and in the spec. -/
theorem linkWallet_apiKey_executes_handler :
    withAuthOutcome exEnvApiKeyOk (some "Bearer mc_live_key1") =
      .handled exApiKeyPrincipal ∧
    (∀ handler, linkWalletPOST exEnvApiKeyOk (some "Bearer mc_live_key1") handler =
      handler exApiKeyPrincipal) ∧
    linkWalletPOST exEnvApiKeyOk (some "Bearer mc_live_key1") exHandler ≠
      unauthorizedResponse := by
  refine ⟨by rfl, fun handler => by rfl, ?_⟩
  have h : linkWalletPOST exEnvApiKeyOk (some "Bearer mc_live_key1") exHandler =
      exOkResponse := by rfl
  rw [h]
  decide

/-- C6: the API-key management endpoints authenticate by session alone —
without a session each of GET, POST and DELETE answers the 401
UNAUTHORIZED envelope and invokes no service operation, whatever
Authorization header (in particular a valid API key) the request carries. -/
theorem apiKeys_session_only (env : ApiKeysEnv) (authHeader : Option String)
    (validatedBody : Option String) (keyId : String)
    (hsession : sessionUserId env.sessionCall = none) :
    apiKeysGET env authHeader =
      (createErrorResponse .UNAUTHORIZED "Session authentication required", false) ∧
    apiKeysPOST env authHeader validatedBody =
      (createErrorResponse .UNAUTHORIZED "Session authentication required", false) ∧
    apiKeysDELETE env authHeader keyId =
      (createErrorResponse .UNAUTHORIZED "Session authentication required", false) ∧
    (createErrorResponse .UNAUTHORIZED "Session authentication required").status = 401 := by
  unfold apiKeysGET apiKeysPOST apiKeysDELETE
  rw [hsession]
  exact ⟨rfl, rfl, rfl, rfl⟩

/-- Witness for C6: a request carrying the valid key `mc_live_key1` but no
session is turned away by all three endpoints without a service call. -/
theorem apiKeys_session_only_witness :
    apiKeysGET exApiKeysEnvNoSession (some "Bearer mc_live_key1") =
      (createErrorResponse .UNAUTHORIZED "Session authentication required", false) ∧
    apiKeysPOST exApiKeysEnvNoSession (some "Bearer mc_live_key1") (some "ci key") =
      (createErrorResponse .UNAUTHORIZED "Session authentication required", false) ∧
    apiKeysDELETE exApiKeysEnvNoSession (some "Bearer mc_live_key1") "key1" =
      (createErrorResponse .UNAUTHORIZED "Session authentication required", false) ∧
    (createErrorResponse .UNAUTHORIZED "Session authentication required").status = 401 :=
  apiKeys_session_only exApiKeysEnvNoSession (some "Bearer mc_live_key1")
    (some "ci key") "key1" (by rfl)

/-- C5: when `erc20TokenService.discover` throws, POST /v1/tokens/erc20
classifies the message by the first matching substring in the fixed source
order — "Invalid Ethereum address" → INVALID_ADDRESS 400, then
"not configured" → CHAIN_NOT_SUPPORTED 400, then "does not implement
ERC-20" or "Failed to read token metadata" → BAD_REQUEST 400, then
"CoinGecko" or "enrichment" → TOKEN_NOT_FOUND 404 — and any other message
yields INTERNAL_SERVER_ERROR 500. -/
theorem discoverTokenError_mapping (msg : String) :
    (containsSubstr msg "Invalid Ethereum address" = true →
      postErc20Token (.error msg) =
        createErrorResponse .INVALID_ADDRESS "Invalid Ethereum address format" ∧
      (postErc20Token (.error msg)).status = 400) ∧
    (containsSubstr msg "Invalid Ethereum address" = false →
     containsSubstr msg "not configured" = true →
      postErc20Token (.error msg) =
        createErrorResponse .CHAIN_NOT_SUPPORTED "Chain not supported" ∧
      (postErc20Token (.error msg)).status = 400) ∧
    (containsSubstr msg "Invalid Ethereum address" = false →
     containsSubstr msg "not configured" = false →
     (containsSubstr msg "does not implement ERC-20" = true ∨
      containsSubstr msg "Failed to read token metadata" = true) →
      postErc20Token (.error msg) =
        createErrorResponse .BAD_REQUEST "Contract does not implement ERC-20 interface" ∧
      (postErc20Token (.error msg)).status = 400) ∧
    (containsSubstr msg "Invalid Ethereum address" = false →
     containsSubstr msg "not configured" = false →
     containsSubstr msg "does not implement ERC-20" = false →
     containsSubstr msg "Failed to read token metadata" = false →
     (containsSubstr msg "CoinGecko" = true ∨
      containsSubstr msg "enrichment" = true) →
      postErc20Token (.error msg) =
        createErrorResponse .TOKEN_NOT_FOUND
          "Token not found on CoinGecko or enrichment failed" ∧
      (postErc20Token (.error msg)).status = 404) ∧
    (containsSubstr msg "Invalid Ethereum address" = false →
     containsSubstr msg "not configured" = false →
     containsSubstr msg "does not implement ERC-20" = false →
     containsSubstr msg "Failed to read token metadata" = false →
     containsSubstr msg "CoinGecko" = false →
     containsSubstr msg "enrichment" = false →
      postErc20Token (.error msg) =
        createErrorResponse .INTERNAL_SERVER_ERROR "Failed to discover token" ∧
      (postErc20Token (.error msg)).status = 500) := by
  unfold postErc20Token discoverTokenErrorResponse
  refine ⟨?_, ?_, ?_, ?_, ?_⟩
  · intro h1
    simp [h1, createErrorResponse, ErrorCodeToHttpStatus]
  · intro h1 h2
    simp [h1, h2, createErrorResponse, ErrorCodeToHttpStatus]
  · intro h1 h2 h3
    rcases h3 with h3 | h3 <;>
      simp [h1, h2, h3, createErrorResponse, ErrorCodeToHttpStatus]
  · intro h1 h2 h3 h4 h5
    rcases h5 with h5 | h5 <;>
      simp [h1, h2, h3, h4, h5, createErrorResponse, ErrorCodeToHttpStatus]
  · intro h1 h2 h3 h4 h5 h6
    simp [h1, h2, h3, h4, h5, h6, createErrorResponse, ErrorCodeToHttpStatus]

/-- Witness for C5: one thrown message per branch of the mapping,
including a message matching none of the substrings. -/
theorem discoverTokenError_mapping_witness :
    (postErc20Token (.error "Invalid Ethereum address: zz") =
      createErrorResponse .INVALID_ADDRESS "Invalid Ethereum address format" ∧
     (postErc20Token (.error "Invalid Ethereum address: zz")).status = 400) ∧
    (postErc20Token (.error "Chain 999 is not configured") =
      createErrorResponse .CHAIN_NOT_SUPPORTED "Chain not supported" ∧
     (postErc20Token (.error "Chain 999 is not configured")).status = 400) ∧
    (postErc20Token (.error "contract does not implement ERC-20") =
      createErrorResponse .BAD_REQUEST "Contract does not implement ERC-20 interface" ∧
     (postErc20Token (.error "contract does not implement ERC-20")).status = 400) ∧
    (postErc20Token (.error "CoinGecko lookup gave no id") =
      createErrorResponse .TOKEN_NOT_FOUND
        "Token not found on CoinGecko or enrichment failed" ∧
     (postErc20Token (.error "CoinGecko lookup gave no id")).status = 404) ∧
    (postErc20Token (.error "database timeout") =
      createErrorResponse .INTERNAL_SERVER_ERROR "Failed to discover token" ∧
     (postErc20Token (.error "database timeout")).status = 500) :=
  ⟨(discoverTokenError_mapping "Invalid Ethereum address: zz").1 (by decide),
   (discoverTokenError_mapping "Chain 999 is not configured").2.1 (by decide) (by decide),
   (discoverTokenError_mapping "contract does not implement ERC-20").2.2.1
     (by decide) (by decide) (Or.inl (by decide)),
   (discoverTokenError_mapping "CoinGecko lookup gave no id").2.2.2.1
     (by decide) (by decide) (by decide) (by decide) (Or.inl (by decide)),
   (discoverTokenError_mapping "database timeout").2.2.2.2
     (by decide) (by decide) (by decide) (by decide) (by decide) (by decide)⟩

/-- C4: the paginated envelope builder returns `success:true`, echoes the
items and the three pagination inputs, and derives
`hasMore = (offset + limit < total)` itself — it takes no `hasMore`
argument, and the positions list route emits exactly the builder's
envelope. -/
theorem createPaginatedResponse_spec {α : Type} (items : List α)
    (total limit offset : Nat) :
    (createPaginatedResponse items total limit offset).success = true ∧
    (createPaginatedResponse items total limit offset).data = items ∧
    (createPaginatedResponse items total limit offset).pagination.total = total ∧
    (createPaginatedResponse items total limit offset).pagination.limit = limit ∧
    (createPaginatedResponse items total limit offset).pagination.offset = offset ∧
    ((createPaginatedResponse items total limit offset).pagination.hasMore = true ↔
      offset + limit < total) ∧
    listPositionsRouteEnvelope items total limit offset =
      createPaginatedResponse items total limit offset := by
  refine ⟨rfl, rfl, rfl, rfl, rfl, ?_, rfl⟩
  simp [createPaginatedResponse]

/-- A nonempty string has nonzero length. -/
theorem string_length_ne_zero {s : String} (h : s ≠ "") : ¬s.length = 0 := by
  cases s with
  | mk data =>
    intro h0
    apply h
    cases data with
    | nil => rfl
    | cons c cs => simp [String.length] at h0

/-- C7 (counterexample): a search request supplying a valid `chainId` and
an `address` alone — no `symbol`, no `name` — is rejected by the route's
validation, because the route never forwards the `address` query
parameter into the schema input. -/
theorem searchRoute_addressOnly_counterexample :
    exAddressOnlyQuery.symbol = none ∧
    exAddressOnlyQuery.name = none ∧
    exAddressOnlyQuery.address.isSome = true ∧
    strict0xAddressCheck (exAddressOnlyQuery.address.getD "") = true ∧
    coerceChainId exAddressOnlyQuery.chainId = some 1 ∧
    searchRouteValidation exAddressOnlyQuery = .invalid := by
  refine ⟨rfl, rfl, rfl, by decide, by decide, by decide⟩

/-- C7 (amended): the schema's cross-field refinement does accept an
`address` alone, but the route forwards only `symbol` and `name` (with
empty strings collapsed to absent) and drops `address`; hence, given a
`chainId` the coercion accepts, request-level validation succeeds exactly
when a nonempty `symbol` or a nonempty `name` is supplied. -/
theorem searchRoute_validation_iff (q : SearchRequestQuery) (cid : Nat)
    (hc : coerceChainId q.chainId = some cid) :
    ((searchRouteValidation q ≠ .invalid) ↔
      ((∃ s, q.symbol = some s ∧ s ≠ "") ∨ (∃ s, q.name = some s ∧ s ≠ ""))) ∧
    (∀ a, strict0xAddressCheck a = true →
      SearchErc20TokensQuerySchemaParse
        { chainId := q.chainId, symbol := none, name := none, address := some a } ≠
        .invalid) := by
  obtain ⟨qc, qs, qn, qa⟩ := q
  dsimp only at hc ⊢
  constructor
  · unfold searchRouteValidation SearchErc20TokensQuerySchemaParse searchRouteSchemaInput
    dsimp only
    rw [hc]
    dsimp only
    cases qs with
    | none =>
      cases qn with
      | none => simp
      | some t =>
        by_cases ht : t = ""
        · subst ht
          simp
        · have h1 := string_length_ne_zero ht
          have h2 : 1 ≤ t.length := Nat.one_le_iff_ne_zero.mpr h1
          simp [ht, h1, h2]
    | some s =>
      by_cases hs : s = ""
      · subst hs
        cases qn with
        | none => simp
        | some t =>
          by_cases ht : t = ""
          · subst ht
            simp
          · have h1 := string_length_ne_zero ht
            have h2 : 1 ≤ t.length := Nat.one_le_iff_ne_zero.mpr h1
            simp [ht, h1, h2]
      · have h1 := string_length_ne_zero hs
        have h2 : 1 ≤ s.length := Nat.one_le_iff_ne_zero.mpr h1
        cases qn with
        | none => simp [hs, h1, h2]
        | some t =>
          by_cases ht : t = ""
          · subst ht
            simp [hs, h1, h2]
          · have h3 := string_length_ne_zero ht
            have h4 : 1 ≤ t.length := Nat.one_le_iff_ne_zero.mpr h3
            simp [hs, ht, h1, h2, h3, h4]
  · intro a ha
    unfold SearchErc20TokensQuerySchemaParse
    dsimp only
    rw [hc]
    simp [ha]

/-- Witness for C7's amended theorem: the query `chainId=1&symbol=usd`
passes the route's validation, and the raw schema accepts a
`chainId`/`address`-only input. -/
theorem searchRoute_validation_iff_witness :
    searchRouteValidation exSymbolQuery ≠ .invalid ∧
    SearchErc20TokensQuerySchemaParse
      { chainId := exSymbolQuery.chainId, symbol := none, name := none,
        address := some "0xAb5801a7D398351b8bE11C439e05C5B3259aeC9B" } ≠
      .invalid :=
  have h := searchRoute_validation_iff exSymbolQuery 1 (by decide)
  ⟨h.1.mpr (Or.inl ⟨"usd", rfl, by decide⟩),
   h.2 "0xAb5801a7D398351b8bE11C439e05C5B3259aeC9B" (by decide)⟩

/-- C2: per-event validation of the PATCH body enforces the conditional
field requirements — an INCREASE_LIQUIDITY or DECREASE_LIQUIDITY event
without `liquidity` fails, one carrying `recipient` fails, a COLLECT
event without `recipient` fails, and an event whose per-field formats all
pass and whose conditional requirements hold produces no issue. -/
theorem eventSchema_conditional_requirements (e : RawEvent) :
    ((e.eventType = "INCREASE_LIQUIDITY" ∨ e.eventType = "DECREASE_LIQUIDITY") →
        e.liquidity = none → eventIssues e ≠ []) ∧
    ((e.eventType = "INCREASE_LIQUIDITY" ∨ e.eventType = "DECREASE_LIQUIDITY") →
        e.recipient.isSome → eventIssues e ≠ []) ∧
    (e.eventType = "COLLECT" → e.recipient = none → eventIssues e ≠ []) ∧
    (eventBaseIssues e = [] →
      ((e.eventType = "INCREASE_LIQUIDITY" ∨ e.eventType = "DECREASE_LIQUIDITY") →
        e.liquidity.isSome ∧ e.recipient = none) →
      (e.eventType = "COLLECT" → e.recipient.isSome) →
      eventIssues e = []) := by
  have dIC : ¬(("INCREASE_LIQUIDITY" : String) = "COLLECT") := by decide
  have dDC : ¬(("DECREASE_LIQUIDITY" : String) = "COLLECT") := by decide
  have dCI : ¬(("COLLECT" : String) = "INCREASE_LIQUIDITY") := by decide
  have dCD : ¬(("COLLECT" : String) = "DECREASE_LIQUIDITY") := by decide
  refine ⟨?_, ?_, ?_, ?_⟩
  · intro htype hliq
    unfold eventIssues
    cases hbase : eventBaseIssues e with
    | nil =>
      unfold eventRefineIssues
      rcases htype with ht | ht <;> simp [ht, hliq, jsTruthyStr]
    | cons a l => simp
  · intro htype hrec
    obtain ⟨r, hr⟩ := Option.isSome_iff_exists.mp hrec
    unfold eventIssues
    cases hbase : eventBaseIssues e with
    | nil =>
      have hbase' := hbase
      simp only [eventBaseIssues, List.append_eq_nil] at hbase'
      obtain ⟨⟨⟨⟨⟨⟨⟨⟨⟨h1, h2⟩, h3⟩, h4⟩, h5⟩, h6⟩, h7⟩, h8⟩, h9⟩, h10⟩ := hbase'
      rw [hr] at h10
      have haddr : ethereumAddressCheck r = true := guard_of_issue_nil h10
      have hrne : r ≠ "" := ethereumAddressCheck_ne_empty haddr
      unfold eventRefineIssues
      rcases htype with ht | ht <;>
        simp [ht, hr, jsTruthyStr, hrne, List.append_eq_nil]
    | cons a l => simp
  · intro ht hrec
    unfold eventIssues
    cases hbase : eventBaseIssues e with
    | nil =>
      unfold eventRefineIssues
      simp [ht, hrec, jsTruthyStr, List.append_eq_nil, dCI, dCD]
    | cons a l => simp
  · intro hbase hcond1 hcond2
    have hbase' := hbase
    simp only [eventBaseIssues, List.append_eq_nil] at hbase'
    obtain ⟨⟨⟨⟨⟨⟨⟨⟨⟨h1, h2⟩, h3⟩, h4⟩, h5⟩, h6⟩, h7⟩, h8⟩, h9⟩, h10⟩ := hbase'
    have htype : e.eventType = "INCREASE_LIQUIDITY" ∨
        e.eventType = "DECREASE_LIQUIDITY" ∨ e.eventType = "COLLECT" :=
      guard_of_issue_nil h1
    unfold eventIssues
    rw [hbase]
    unfold eventRefineIssues
    rcases htype with ht | ht | ht
    · obtain ⟨hliqS, hrecN⟩ := hcond1 (Or.inl ht)
      obtain ⟨l, hl⟩ := Option.isSome_iff_exists.mp hliqS
      rw [hl] at h7
      have hbig : bigIntStringCheck l = true := guard_of_issue_nil h7
      have hlne : l ≠ "" := bigIntStringCheck_ne_empty hbig
      simp [ht, hl, hrecN, jsTruthyStr, hlne, dIC]
    · obtain ⟨hliqS, hrecN⟩ := hcond1 (Or.inr ht)
      obtain ⟨l, hl⟩ := Option.isSome_iff_exists.mp hliqS
      rw [hl] at h7
      have hbig : bigIntStringCheck l = true := guard_of_issue_nil h7
      have hlne : l ≠ "" := bigIntStringCheck_ne_empty hbig
      simp [ht, hl, hrecN, jsTruthyStr, hlne, dDC]
    · have hrecS := hcond2 ht
      obtain ⟨r, hr⟩ := Option.isSome_iff_exists.mp hrecS
      rw [hr] at h10
      have haddr : ethereumAddressCheck r = true := guard_of_issue_nil h10
      have hrne : r ≠ "" := ethereumAddressCheck_ne_empty haddr
      simp [ht, hr, jsTruthyStr, hrne, dCI, dCD]

/-- Witness for C2: a format-valid COLLECT without recipient is rejected,
an INCREASE_LIQUIDITY carrying a recipient is rejected, and the
format-valid COLLECT and INCREASE_LIQUIDITY events pass. -/
theorem eventSchema_conditional_requirements_witness :
    eventIssues exCollectNoRecipient ≠ [] ∧
    eventIssues { exIncreaseEvent with
      recipient := some "0xAb5801a7D398351b8bE11C439e05C5B3259aeC9B" } ≠ [] ∧
    eventIssues exIncreaseEvent = [] ∧
    eventIssues exCollectEvent = [] :=
  ⟨(eventSchema_conditional_requirements exCollectNoRecipient).2.2.1 rfl rfl,
   (eventSchema_conditional_requirements { exIncreaseEvent with
      recipient := some "0xAb5801a7D398351b8bE11C439e05C5B3259aeC9B" }).2.1
     (Or.inl rfl) (by decide),
   (eventSchema_conditional_requirements exIncreaseEvent).2.2.2
     (by decide) (by decide) (by decide),
   (eventSchema_conditional_requirements exCollectEvent).2.2.2
     (by decide) (by decide) (by decide)⟩

/-- The fuel-structural digit loop computes the base-10 digits, most
significant first, whenever the fuel covers the input. -/
theorem toDecimalAux_eq_digits (fuel : Nat) :
    ∀ n : Nat, n < fuel →
      toDecimalAux fuel n = ((Nat.digits 10 n).map Nat.digitChar).reverse := by
  induction fuel with
  | zero => intro n h; omega
  | succ f ih =>
    intro n h
    unfold toDecimalAux
    by_cases hn : n = 0
    · simp [hn]
    · have hpos : 0 < n := Nat.pos_of_ne_zero hn
      have hdiv : n / 10 < f := by
        have := Nat.div_lt_self hpos (by norm_num : 1 < 10)
        omega
      rw [if_neg hn, ih (n / 10) hdiv,
        Nat.digits_def' (by norm_num : 1 < 10) hpos]
      simp

/-- `Nat.digitChar` of a digit is a decimal digit character. -/
theorem digitChar_isDigit {d : Nat} (h : d < 10) :
    (Nat.digitChar d).isDigit = true := by
  interval_cases d <;> decide

/-- `Nat.digitChar` of a digit reads back as that digit. -/
theorem digitChar_toNat {d : Nat} (h : d < 10) :
    (Nat.digitChar d).toNat - 48 = d := by
  interval_cases d <;> decide

/-- Folding the decimal-read step over digit characters, most significant
first, reconstructs `Nat.ofDigits`. -/
theorem foldr_digitChars_eq_ofDigits (l : List Nat) (hl : ∀ d ∈ l, d < 10) :
    List.foldr (fun c acc => 10 * acc + (c.toNat - 48)) 0 (l.map Nat.digitChar) =
      Nat.ofDigits 10 l := by
  induction l with
  | nil => simp [Nat.ofDigits]
  | cons d rest ih =>
    simp only [List.map_cons, List.foldr_cons]
    rw [ih (fun x hx => hl x (List.mem_cons_of_mem _ hx)),
      digitChar_toNat (hl d (List.mem_cons_self _ _)), Nat.ofDigits_cons]
    ring

/-- `bigintToString` prints only decimal digits and `parseDecimal` reads
the exact value back, for every natural number. -/
theorem bigintToString_roundtrip (n : Nat) :
    (bigintToString n).toList.all Char.isDigit = true ∧
    parseDecimal (bigintToString n) = some n := by
  by_cases hn : n = 0
  · subst hn
    exact ⟨by decide, by decide⟩
  · have hlt : n < n + 1 := Nat.lt_succ_self n
    have hchars : (bigintToString n).toList =
        ((Nat.digits 10 n).map Nat.digitChar).reverse := by
      unfold bigintToString
      rw [if_neg hn, toDecimalAux_eq_digits (n + 1) n hlt]
      rfl
    have hdigits : ∀ c ∈ (bigintToString n).toList, c.isDigit = true := by
      intro c hc
      rw [hchars] at hc
      rw [List.mem_reverse] at hc
      obtain ⟨d, hd, rfl⟩ := List.mem_map.mp hc
      exact digitChar_isDigit (Nat.digits_lt_base (by norm_num) hd)
    have hall : (bigintToString n).toList.all Char.isDigit = true :=
      List.all_eq_true.mpr hdigits
    have hne : ¬(bigintToString n).toList.isEmpty = true := by
      rw [hchars]
      simp [Nat.digits_ne_nil_iff_ne_zero.mpr hn]
    refine ⟨hall, ?_⟩
    unfold parseDecimal
    rw [if_neg hne, if_pos hall, hchars, List.foldl_reverse,
      foldr_digitChars_eq_ofDigits _ (fun d hd => Nat.digits_lt_base (by norm_num) hd),
      Nat.ofDigits_digits]

/-- C8: serializing a pool state renders each wide-integer field
(`sqrtPriceX96`, `liquidity`, `feeGrowthGlobal0`, `feeGrowthGlobal1`, any
value up to 2^256 − 1) as its exact decimal string — digits only, so no
scientific notation and no fractional part — and parsing that string
recovers the original integer; `currentTick` passes through unchanged. -/
theorem poolState_serialization_roundtrip (st : UniswapV3PoolState)
    (_h0 : st.sqrtPriceX96 < 2 ^ 256) (_h1 : st.liquidity < 2 ^ 256)
    (_h2 : st.feeGrowthGlobal0 < 2 ^ 256) (_h3 : st.feeGrowthGlobal1 < 2 ^ 256) :
    ((serializeUniswapV3PoolState st).sqrtPriceX96 =
        bigintToString st.sqrtPriceX96 ∧
      (serializeUniswapV3PoolState st).sqrtPriceX96.toList.all Char.isDigit = true ∧
      parseDecimal (serializeUniswapV3PoolState st).sqrtPriceX96 =
        some st.sqrtPriceX96) ∧
    ((serializeUniswapV3PoolState st).liquidity = bigintToString st.liquidity ∧
      (serializeUniswapV3PoolState st).liquidity.toList.all Char.isDigit = true ∧
      parseDecimal (serializeUniswapV3PoolState st).liquidity =
        some st.liquidity) ∧
    ((serializeUniswapV3PoolState st).feeGrowthGlobal0 =
        bigintToString st.feeGrowthGlobal0 ∧
      (serializeUniswapV3PoolState st).feeGrowthGlobal0.toList.all Char.isDigit = true ∧
      parseDecimal (serializeUniswapV3PoolState st).feeGrowthGlobal0 =
        some st.feeGrowthGlobal0) ∧
    ((serializeUniswapV3PoolState st).feeGrowthGlobal1 =
        bigintToString st.feeGrowthGlobal1 ∧
      (serializeUniswapV3PoolState st).feeGrowthGlobal1.toList.all Char.isDigit = true ∧
      parseDecimal (serializeUniswapV3PoolState st).feeGrowthGlobal1 =
        some st.feeGrowthGlobal1) ∧
    (serializeUniswapV3PoolState st).currentTick = st.currentTick :=
  ⟨⟨rfl, (bigintToString_roundtrip st.sqrtPriceX96).1,
     (bigintToString_roundtrip st.sqrtPriceX96).2⟩,
   ⟨rfl, (bigintToString_roundtrip st.liquidity).1,
     (bigintToString_roundtrip st.liquidity).2⟩,
   ⟨rfl, (bigintToString_roundtrip st.feeGrowthGlobal0).1,
     (bigintToString_roundtrip st.feeGrowthGlobal0).2⟩,
   ⟨rfl, (bigintToString_roundtrip st.feeGrowthGlobal1).1,
     (bigintToString_roundtrip st.feeGrowthGlobal1).2⟩,
   rfl⟩

/-- Witness for C8 at the extreme state whose every wide field holds
2^256 − 1. -/
theorem poolState_serialization_roundtrip_witness :
    ((serializeUniswapV3PoolState exMaxPoolState).sqrtPriceX96 =
        bigintToString (2 ^ 256 - 1) ∧
      (serializeUniswapV3PoolState exMaxPoolState).sqrtPriceX96.toList.all
        Char.isDigit = true ∧
      parseDecimal (serializeUniswapV3PoolState exMaxPoolState).sqrtPriceX96 =
        some (2 ^ 256 - 1)) ∧
    (serializeUniswapV3PoolState exMaxPoolState).currentTick = -887272 :=
  have h := poolState_serialization_roundtrip exMaxPoolState
    (by decide) (by decide) (by decide) (by decide)
  ⟨h.1, h.2.2.2.2⟩

end Midcurve
